import Mathlib

/-!
Formal model of the rtlsdr-rs wrapper (src/lib.rs and src/bin.rs).

The foreign librtlsdr layer is modelled by parameters: each foreign call is
given its return code and the thread's OS errno (`ForeignRet`), and every
call the wrapper issues across the boundary is recorded in a `ForeignCall`
trace, carrying exactly the arguments that cross the boundary.  The shared
`Arc<AtomicBool>` close latch of `Device` is the explicit shared state
`DevState` (with a ghost counter of native `rtlsdr_close` invocations);
clones of one logical `Device` share one `DevState`.  Since the latch CAS is
the only shared-memory access any `close()` performs, an arbitrary
interleaving of `close()` calls (including the `Drop` path, which simply
calls `close()`) is modelled exactly by a sequential list of atomic
`Device.close` steps in the order their CAS operations take effect.
-/

namespace RtlSdr

/-- A foreign (C library) call issued by the wrapper, recorded with the
arguments that cross the boundary.  Native pointers are modelled as `Nat`
addresses, never dereferenced by this layer. -/
inductive ForeignCall where
  | rtlsdr_open (device_index : Nat)
  | rtlsdr_set_tuner_gain_mode (ptr : Nat) (mode : Int)
  | rtlsdr_get_tuner_gain (ptr : Nat)
  | rtlsdr_set_tuner_gain (ptr : Nat) (gain : Int)
  | rtlsdr_set_freq_correction (ptr : Nat) (ppm : Int)
  | rtlsdr_set_center_freq (ptr : Nat) (freq : Nat)
  | rtlsdr_set_sample_rate (ptr : Nat) (rate : Nat)
  | rtlsdr_reset_buffer (ptr : Nat)
  | rtlsdr_read_async (ptr : Nat) (ctx : Nat) (block_size : Nat)
  | rtlsdr_cancel_async (ptr : Nat)
  | rtlsdr_close (ptr : Nat)
  deriving DecidableEq, Repr

/-- Environment of one foreign call: the `c_int` it returns and the OS errno
the thread would observe right after it (what `Error::last_os_error()` reads). -/
structure ForeignRet where
  ret : Int
  errno : Int
  deriving DecidableEq, Repr

/-- Model of `std::io::Error` as produced by `Error::last_os_error()`: it
carries the raw OS error code and nothing else. -/
structure IoError where
  os_error : Int
  deriving DecidableEq, Repr

/-- Model of `Device` (src/lib.rs lines 7-12): the opaque native pointer.
The `has_closed_device : Arc<AtomicBool>` field is shared state, modelled
separately as `DevState` so that clones can alias it. -/
structure Device where
  device : Nat
  deriving DecidableEq, Repr

/-- The state behind the shared `Arc<AtomicBool>` close latch, together with
a ghost count of how many times the native `rtlsdr_close` has been invoked. -/
structure DevState where
  has_closed_device : Bool
  nativeCloseCalls : Nat
  deriving DecidableEq, Repr

/-- `AtomicBool::compare_and_swap(current, new, ordering)`: atomically
replaces the stored value with `new` if it equals `current`, returning the
previous value.  Result is `(previous value, new stored value)`. -/
def compare_and_swap (current new st : Bool) : Bool × Bool :=
  if st = current then (st, new) else (st, st)

/-- `Device::open` (src/lib.rs lines 15-23): calls `rtlsdr_open`; on nonzero
return fails with `Error::last_os_error()`, otherwise yields the device with
a fresh unset close latch.  `open` is a Lean keyword, hence the name. -/
def Device.open_device (device_index : Nat) (ptr : Nat) (f : ForeignRet) :
    Except IoError (Device × DevState) × List ForeignCall :=
  (if f.ret ≠ 0 then Except.error ⟨f.errno⟩ else Except.ok (⟨ptr⟩, ⟨false, 0⟩),
   [ForeignCall.rtlsdr_open device_index])

/-- `Device::set_tuner_gain_mode` (src/lib.rs lines 25-32). -/
def Device.set_tuner_gain_mode (d : Device) (tuner_gain_mode : Int)
    (f : ForeignRet) (s : DevState) :
    Except IoError Unit × DevState × List ForeignCall :=
  ((if f.ret ≠ 0 then Except.error ⟨f.errno⟩ else Except.ok ()), s,
   [ForeignCall.rtlsdr_set_tuner_gain_mode d.device tuner_gain_mode])

/-- `Device::get_tuner_gain` (src/lib.rs lines 34-36): direct pass-through,
no failure path. -/
def Device.get_tuner_gain (d : Device) (gain : Int) (s : DevState) :
    Int × DevState × List ForeignCall :=
  (gain, s, [ForeignCall.rtlsdr_get_tuner_gain d.device])

/-- `Device::set_tuner_gain` (src/lib.rs lines 38-45). -/
def Device.set_tuner_gain (d : Device) (tuner_gain : Int)
    (f : ForeignRet) (s : DevState) :
    Except IoError Unit × DevState × List ForeignCall :=
  ((if f.ret ≠ 0 then Except.error ⟨f.errno⟩ else Except.ok ()), s,
   [ForeignCall.rtlsdr_set_tuner_gain d.device tuner_gain])

/-- `Device::set_freq_correction` (src/lib.rs lines 47-54). -/
def Device.set_freq_correction (d : Device) (ppm_error : Int)
    (f : ForeignRet) (s : DevState) :
    Except IoError Unit × DevState × List ForeignCall :=
  ((if f.ret ≠ 0 then Except.error ⟨f.errno⟩ else Except.ok ()), s,
   [ForeignCall.rtlsdr_set_freq_correction d.device ppm_error])

/-- `Device::set_center_freq` (src/lib.rs lines 56-63). -/
def Device.set_center_freq (d : Device) (frequency : Nat)
    (f : ForeignRet) (s : DevState) :
    Except IoError Unit × DevState × List ForeignCall :=
  ((if f.ret ≠ 0 then Except.error ⟨f.errno⟩ else Except.ok ()), s,
   [ForeignCall.rtlsdr_set_center_freq d.device frequency])

/-- `Device::set_sample_rate` (src/lib.rs lines 65-72). -/
def Device.set_sample_rate (d : Device) (sample_rate : Nat)
    (f : ForeignRet) (s : DevState) :
    Except IoError Unit × DevState × List ForeignCall :=
  ((if f.ret ≠ 0 then Except.error ⟨f.errno⟩ else Except.ok ()), s,
   [ForeignCall.rtlsdr_set_sample_rate d.device sample_rate])

/-- `Device::reset_buffer` (src/lib.rs lines 74-81). -/
def Device.reset_buffer (d : Device) (f : ForeignRet) (s : DevState) :
    Except IoError Unit × DevState × List ForeignCall :=
  ((if f.ret ≠ 0 then Except.error ⟨f.errno⟩ else Except.ok ()), s,
   [ForeignCall.rtlsdr_reset_buffer d.device])

/-- `Device::cancel_async` (src/lib.rs lines 94-101). -/
def Device.cancel_async (d : Device) (f : ForeignRet) (s : DevState) :
    Except IoError Unit × DevState × List ForeignCall :=
  ((if f.ret ≠ 0 then Except.error ⟨f.errno⟩ else Except.ok ()), s,
   [ForeignCall.rtlsdr_cancel_async d.device])

/-- `Device::close` (src/lib.rs lines 103-115): one atomic
`compare_and_swap(false, true)` on the shared latch; the caller that sees
previous value `false` performs the native `rtlsdr_close` (recorded in the
trace and the ghost counter) and propagates its result; every other caller
does nothing and returns `Ok(())`. -/
def Device.close (d : Device) (f : ForeignRet) (s : DevState) :
    Except IoError Unit × DevState × List ForeignCall :=
  let cas := compare_and_swap false true s.has_closed_device
  if cas.1 = false then
    ((if f.ret ≠ 0 then Except.error ⟨f.errno⟩ else Except.ok ()),
     ⟨cas.2, s.nativeCloseCalls + 1⟩, [ForeignCall.rtlsdr_close d.device])
  else
    (Except.ok (), ⟨cas.2, s.nativeCloseCalls⟩, [])

/-- A sequence of `close()` calls on clones sharing one latch, each supplied
with its own foreign environment, executed in the order their latch CAS
operations take effect.  Returns the per-call results, the final shared
state and the concatenated foreign-call trace. -/
def closeAll (d : Device) :
    List ForeignRet → DevState →
      List (Except IoError Unit) × DevState × List ForeignCall
  | [], s => ([], s, [])
  | f :: fs, s =>
    let step := Device.close d f s
    let rest := closeAll d fs step.2.1
    (step.1 :: rest.1, rest.2.1, step.2.2 ++ rest.2.2)

/-- Outcome of `Drop::drop`: either it returns normally or the
`self.close().unwrap()` panics (process abort), carrying the close error. -/
inductive DropOutcome where
  | returned
  | panicked (e : IoError)
  deriving DecidableEq, Repr

/-- `impl Drop for Device` (src/lib.rs lines 141-146): `self.close().unwrap()`.
A close error is not returned or suppressed: it becomes a panic. -/
def Device.drop_device (d : Device) (f : ForeignRet) (s : DevState) :
    DropOutcome × DevState × List ForeignCall :=
  match Device.close d f s with
  | (Except.ok _, s', t) => (DropOutcome.returned, s', t)
  | (Except.error e, s', t) => (DropOutcome.panicked e, s', t)

/-- `AsyncClosureReader` (src/lib.rs lines 118-126): holds the boxed user
closure.  The `FnMut` closure is modelled as a pure step function over an
explicit closure-state type `σ`; one invocation on a byte buffer maps
`state` to `callback state buffer`. -/
structure AsyncClosureReader (σ : Type) where
  callback : σ → List Nat → σ
  state : σ

/-- `AsyncClosureReader::new`. -/
def AsyncClosureReader.new {σ : Type} (callback : σ → List Nat → σ) (state : σ) :
    AsyncClosureReader σ :=
  ⟨callback, state⟩

/-- Heap of boxed callback contexts, addressed by the raw pointer value that
`Box::into_raw` handed to the foreign library.  `some` means the allocation
is live at that address. -/
def CtxHeap (σ : Type) : Type :=
  Nat → Option (AsyncClosureReader σ)

/-- The foreign callback trampoline `async_callback` (src/lib.rs 128-139).
`Box::from_raw` reconstitutes the context living at `boxed_ctx`;
`slice::from_raw_parts buf len` is the read-only view of exactly `len`
bytes of the foreign buffer (modelled by reading `buf : Nat → Nat` at
offsets `0..len`, no copy of the foreign storage); the user closure is
applied once to that view; `Box::into_raw` then returns the context to the
same address, so the net heap effect is: the context at `boxed_ctx` has its
closure state advanced by one invocation and every other address is
untouched.  Invoking the trampoline on a dead address is undefined
behaviour in the source; the model leaves the heap unchanged there. -/
def async_callback {σ : Type} (buf : Nat → Nat) (len : Nat) (boxed_ctx : Nat)
    (h : CtxHeap σ) : CtxHeap σ :=
  match h boxed_ctx with
  | none => h
  | some closure_reader =>
    fun a =>
      if a = boxed_ctx then
        some ⟨closure_reader.callback,
          closure_reader.callback closure_reader.state ((List.range len).map buf)⟩
      else h a

/-- Result of one `read_async` call: the value returned to the caller, the
shared device state, the context heap after the blocking call has returned,
and the foreign-call trace of the wrapper itself. -/
structure ReadAsyncResult (σ : Type) where
  result : Except IoError Unit
  dstate : DevState
  heap : CtxHeap σ
  trace : List ForeignCall

/-- `Device::read_async` (src/lib.rs lines 83-92): boxes the closure into a
fresh `Box<Box<AsyncClosureReader>>` whose raw address `ctx_addr` is passed
to `rtlsdr_read_async`; the foreign call blocks while the library invokes
the trampoline once per delivered buffer (`session` lists the buffers of
the whole session as pairs of buffer contents and foreign-supplied length);
when the blocking call returns, its nonzero return becomes
`Error::last_os_error()`.  The raw context pointer is never reclaimed after
the call returns. -/
def Device.read_async {σ : Type} (d : Device) (output_block_size : Nat)
    (callback : σ → List Nat → σ) (st : σ) (ctx_addr : Nat)
    (session : List ((Nat → Nat) × Nat)) (f : ForeignRet)
    (s : DevState) (h : CtxHeap σ) : ReadAsyncResult σ :=
  let h1 : CtxHeap σ := fun a =>
    if a = ctx_addr then some (AsyncClosureReader.new callback st) else h a
  let h2 := session.foldl (fun hh p => async_callback p.1 p.2 ctx_addr hh) h1
  ⟨(if f.ret ≠ 0 then Except.error ⟨f.errno⟩ else Except.ok ()), s, h2,
   [ForeignCall.rtlsdr_read_async d.device ctx_addr output_block_size]⟩

/-- `DeviceInfo` (src/lib.rs lines 148-152). -/
structure DeviceInfo where
  vendor : String
  product : String
  serial : String
  deriving DecidableEq, Repr

/-- `get_device` (src/lib.rs lines 170-197): queries the USB strings for
`index`; `query` supplies the foreign return/errno and the strings read
back from the buffers.  Zero return yields the record, nonzero fails with
`Error::last_os_error()`. -/
def get_device (index : Nat) (query : Nat → ForeignRet × DeviceInfo) :
    Except IoError DeviceInfo :=
  if (query index).1.ret = 0 then Except.ok (query index).2
  else Except.error ⟨(query index).1.errno⟩

/-- `get_device_count` (src/lib.rs lines 154-156): pass-through of
`rtlsdr_get_device_count`. -/
def get_device_count (count : Nat) : Nat :=
  count

/-- Loop body of `get_devices` (src/lib.rs lines 161-165): push the record
on `Ok`, do nothing on `Err`. -/
def push_device (query : Nat → ForeignRet × DeviceInfo)
    (devices : List DeviceInfo) (j : Nat) : List DeviceInfo :=
  match get_device j query with
  | Except.ok d => devices ++ [d]
  | Except.error _ => devices

/-- `get_devices` (src/lib.rs lines 158-168): iterates `0..count`, pushing
each successfully queried record and silently skipping failing indices. -/
def get_devices (count : Nat) (query : Nat → ForeignRet × DeviceInfo) :
    List DeviceInfo :=
  (List.range (get_device_count count)).foldl (push_device query) []

/-- The no-devices check in `main` (src/bin.rs lines 99-102): an empty
enumeration aborts with a dedicated `TextError`. -/
def main_no_devices_check (devices : List DeviceInfo) : Except String Unit :=
  if devices.length = 0 then
    Except.error ("No supported RTLSDR devices found.")
  else Except.ok ()

/-- State threaded through the data closure of `main` (src/bin.rs 130-145):
the running byte total and a ghost count of `cancel_async` requests the
closure has issued. -/
structure MainState where
  total_bytes_written : Nat
  cancel_async_calls : Nat
  deriving DecidableEq, Repr

/-- One invocation of the closure passed to `read_async` by `main`
(src/bin.rs lines 132-145): writes `data` to the file (`write` returns the
number of bytes actually written), adds it to the running total, requests
cancellation on a short write, and requests cancellation when
`samples > 0 && total_bytes_written > samples`. -/
def main_callback (samples : Nat) (write : List Nat → Nat)
    (s : MainState) (data : List Nat) : MainState :=
  let bytes_written := write data
  let total_bytes_written := s.total_bytes_written + bytes_written
  let c1 := if bytes_written ≠ data.length then s.cancel_async_calls + 1
            else s.cancel_async_calls
  let c2 := if 0 < samples ∧ samples < total_bytes_written then c1 + 1 else c1
  ⟨total_bytes_written, c2⟩

/-- Feed a list of buffers to the `main` closure unconditionally, in order. -/
def runCallbacks (samples : Nat) (write : List Nat → Nat)
    (bufs : List (List Nat)) (s : MainState) : MainState :=
  bufs.foldl (main_callback samples write) s

/-- Delivery loop of the foreign library: before each buffer it checks
whether cancellation has been requested and stops if so; otherwise it
delivers the buffer to the `main` closure.  Returns the final closure state
and how many buffers were delivered. -/
def deliverUntilCancel (samples : Nat) (write : List Nat → Nat) :
    List (List Nat) → MainState → MainState × Nat
  | [], s => (s, 0)
  | b :: bs, s =>
    if 0 < s.cancel_async_calls then (s, 0)
    else
      let step := deliverUntilCancel samples write bs (main_callback samples write s b)
      (step.1, step.2 + 1)

/-! Helper lemmas about the close latch. -/

/-- A `close()` that observes the latch already set is a no-op returning
success. -/
theorem close_closed (d : Device) (f : ForeignRet) (n : Nat) :
    Device.close d f ⟨true, n⟩ = (Except.ok (), ⟨true, n⟩, []) := by
  rfl

/-- The `close()` that wins the CAS performs the single native teardown and
propagates its result. -/
theorem close_fresh (d : Device) (f : ForeignRet) (n : Nat) :
    Device.close d f ⟨false, n⟩ =
      ((if f.ret ≠ 0 then Except.error ⟨f.errno⟩ else Except.ok ()),
       ⟨true, n + 1⟩, [ForeignCall.rtlsdr_close d.device]) := by
  rfl

/-- Any number of `close()` calls on an already-latched state all succeed,
change nothing and issue no foreign calls. -/
theorem closeAll_closed (d : Device) (fs : List ForeignRet) (n : Nat) :
    closeAll d fs ⟨true, n⟩ =
      (List.replicate fs.length (Except.ok ()), ⟨true, n⟩, []) := by
  induction fs with
  | nil => rfl
  | cons f fs ih =>
    simp [closeAll, close_closed, ih, List.replicate]

/-- C1: for every N ≥ 1 close() calls (list `f :: fs`) on clones of one
logical device — one shared native pointer and one shared latch, starting
unlatched — executed in the order their latch CAS operations take effect
(covering any call order and interleaving, drop's automatic teardown
included since it just calls close), the native `rtlsdr_close` is executed
exactly once, on the shared pointer; and when that native call succeeds
(return 0) every close() call returns success. -/
theorem close_exactly_once (d : Device) (f : ForeignRet) (fs : List ForeignRet) :
    (closeAll d (f :: fs) ⟨false, 0⟩).2.1.nativeCloseCalls = 1 ∧
    (closeAll d (f :: fs) ⟨false, 0⟩).2.2 = [ForeignCall.rtlsdr_close d.device] ∧
    (f.ret = 0 →
      ∀ r ∈ (closeAll d (f :: fs) ⟨false, 0⟩).1, r = Except.ok ()) := by
  have hstep : closeAll d (f :: fs) ⟨false, 0⟩ =
      ((if f.ret ≠ 0 then Except.error ⟨f.errno⟩ else Except.ok ()) ::
        List.replicate fs.length (Except.ok ()),
       ⟨true, 1⟩, [ForeignCall.rtlsdr_close d.device]) := by
    simp [closeAll, close_fresh, closeAll_closed]
  rw [hstep]
  refine ⟨rfl, rfl, ?_⟩
  intro hf r hr
  simp [hf] at hr
  rcases hr with hr | hr
  · exact hr
  · exact hr.2

/-- Witness for C1 at three concrete close() calls with a succeeding native
teardown. -/
theorem close_exactly_once_witness :
    (closeAll ⟨1⟩ [⟨0, 0⟩, ⟨0, 0⟩, ⟨0, 0⟩] ⟨false, 0⟩).2.1.nativeCloseCalls = 1 ∧
    (closeAll ⟨1⟩ [⟨0, 0⟩, ⟨0, 0⟩, ⟨0, 0⟩] ⟨false, 0⟩).2.2 =
      [ForeignCall.rtlsdr_close 1] ∧
    (closeAll ⟨1⟩ [⟨0, 0⟩, ⟨0, 0⟩, ⟨0, 0⟩] ⟨false, 0⟩).1 =
      [Except.ok (), Except.ok (), Except.ok ()] :=
  ⟨(close_exactly_once ⟨1⟩ ⟨0, 0⟩ [⟨0, 0⟩, ⟨0, 0⟩]).1,
   (close_exactly_once ⟨1⟩ ⟨0, 0⟩ [⟨0, 0⟩, ⟨0, 0⟩]).2.1, rfl⟩

/-- C2: close() is a single atomic test-and-set on the shared latch.  The
caller that flips the latch from unset to set performs the native teardown
(recorded in the trace and the ghost counter) and propagates its result —
error exactly when the foreign return is nonzero; any caller that observes
the latch already set performs no native operation, changes nothing and
returns success. -/
theorem close_test_and_set (d : Device) (f : ForeignRet) (s : DevState) :
    (s.has_closed_device = false →
      (Device.close d f s).2.2 = [ForeignCall.rtlsdr_close d.device] ∧
      (Device.close d f s).2.1.has_closed_device = true ∧
      (Device.close d f s).2.1.nativeCloseCalls = s.nativeCloseCalls + 1 ∧
      (f.ret ≠ 0 → (Device.close d f s).1 = Except.error ⟨f.errno⟩) ∧
      (f.ret = 0 → (Device.close d f s).1 = Except.ok ())) ∧
    (s.has_closed_device = true →
      (Device.close d f s).1 = Except.ok () ∧
      (Device.close d f s).2.1 = s ∧
      (Device.close d f s).2.2 = []) := by
  obtain ⟨b, n⟩ := s
  cases b with
  | false =>
    refine ⟨fun _ => ⟨rfl, rfl, rfl, ?_, ?_⟩, fun hcontra => by simp at hcontra⟩
    · intro hf
      simp [close_fresh, hf]
    · intro hf
      simp [close_fresh, hf]
  | true =>
    refine ⟨fun hcontra => by simp at hcontra, fun _ => ⟨rfl, rfl, rfl⟩⟩

/-- Witness for C2: a latch-winning close with failing native teardown and a
latch-losing close, at concrete inputs. -/
theorem close_test_and_set_witness :
    (Device.close ⟨1⟩ ⟨3, 7⟩ ⟨false, 0⟩).2.2 = [ForeignCall.rtlsdr_close 1] ∧
    (Device.close ⟨1⟩ ⟨3, 7⟩ ⟨false, 0⟩).1 = Except.error ⟨7⟩ ∧
    (Device.close ⟨1⟩ ⟨3, 7⟩ ⟨true, 1⟩).1 = Except.ok () ∧
    (Device.close ⟨1⟩ ⟨3, 7⟩ ⟨true, 1⟩).2.2 = [] :=
  ⟨((close_test_and_set ⟨1⟩ ⟨3, 7⟩ ⟨false, 0⟩).1 rfl).1,
   ((close_test_and_set ⟨1⟩ ⟨3, 7⟩ ⟨false, 0⟩).1 rfl).2.2.2.1 (by decide),
   ((close_test_and_set ⟨1⟩ ⟨3, 7⟩ ⟨true, 1⟩).2 rfl).1,
   ((close_test_and_set ⟨1⟩ ⟨3, 7⟩ ⟨true, 1⟩).2 rfl).2.2⟩

/-- C10: when the latch-winning close()'s native teardown fails (nonzero
foreign return), close() returns the error but the latch stays set, so no
later close() or drop on any clone retries the native teardown: every later
call returns success, issues no foreign call, and the native close count
stays at 1 even though the resource was never successfully released. -/
theorem close_failed_no_retry (d : Device) (f : ForeignRet)
    (fs : List ForeignRet) (hfail : f.ret ≠ 0) :
    (Device.close d f ⟨false, 0⟩).1 = Except.error ⟨f.errno⟩ ∧
    (Device.close d f ⟨false, 0⟩).2.1 = ⟨true, 1⟩ ∧
    (closeAll d fs (Device.close d f ⟨false, 0⟩).2.1).1 =
      List.replicate fs.length (Except.ok ()) ∧
    (closeAll d fs (Device.close d f ⟨false, 0⟩).2.1).2.1.nativeCloseCalls = 1 ∧
    (closeAll d fs (Device.close d f ⟨false, 0⟩).2.1).2.2 = [] := by
  have h1 : (Device.close d f ⟨false, 0⟩).2.1 = ⟨true, 1⟩ := by
    rw [close_fresh]
  refine ⟨?_, h1, ?_, ?_, ?_⟩
  · rw [close_fresh]; simp [hfail]
  · rw [h1, closeAll_closed]
  · rw [h1, closeAll_closed]
  · rw [h1, closeAll_closed]

/-- Witness for C10 with a failing native teardown (return 3, errno 7) and
two subsequent close() calls. -/
theorem close_failed_no_retry_witness :
    (Device.close ⟨1⟩ ⟨3, 7⟩ ⟨false, 0⟩).1 = Except.error ⟨7⟩ ∧
    (closeAll ⟨1⟩ [⟨0, 0⟩, ⟨0, 0⟩] (Device.close ⟨1⟩ ⟨3, 7⟩ ⟨false, 0⟩).2.1).1 =
      [Except.ok (), Except.ok ()] ∧
    (closeAll ⟨1⟩ [⟨0, 0⟩, ⟨0, 0⟩]
        (Device.close ⟨1⟩ ⟨3, 7⟩ ⟨false, 0⟩).2.1).2.1.nativeCloseCalls = 1 :=
  ⟨(close_failed_no_retry ⟨1⟩ ⟨3, 7⟩ [⟨0, 0⟩, ⟨0, 0⟩] (by decide)).1,
   (close_failed_no_retry ⟨1⟩ ⟨3, 7⟩ [⟨0, 0⟩, ⟨0, 0⟩] (by decide)).2.2.1,
   (close_failed_no_retry ⟨1⟩ ⟨3, 7⟩ [⟨0, 0⟩, ⟨0, 0⟩] (by decide)).2.2.2.1⟩

/-- C8: when a Device goes out of scope, Drop runs `self.close().unwrap()`:
the drop has exactly the state effect and foreign-call trace of close(); a
successful close makes drop return normally, and a failing close makes drop
panic with that error (fatal — the failure is neither returned nor
suppressed).  In particular dropping an unlatched device whose native
teardown fails panics with the OS error. -/
theorem drop_closes_and_failure_is_fatal (d : Device) (f : ForeignRet)
    (s : DevState) :
    (Device.drop_device d f s).2 = (Device.close d f s).2 ∧
    ((Device.close d f s).1 = Except.ok () →
      (Device.drop_device d f s).1 = DropOutcome.returned) ∧
    (∀ e, (Device.close d f s).1 = Except.error e →
      (Device.drop_device d f s).1 = DropOutcome.panicked e) ∧
    (s.has_closed_device = false → f.ret ≠ 0 →
      (Device.drop_device d f s).1 = DropOutcome.panicked ⟨f.errno⟩) := by
  have heq : Device.drop_device d f s =
      ((match (Device.close d f s).1 with
        | Except.ok _ => DropOutcome.returned
        | Except.error e => DropOutcome.panicked e),
       (Device.close d f s).2) := by
    rcases hc : Device.close d f s with ⟨r, s', t⟩
    rcases r with e | u <;> simp [Device.drop_device, hc]
  have hfatal : s.has_closed_device = false → f.ret ≠ 0 →
      (Device.close d f s).1 = Except.error ⟨f.errno⟩ := by
    intro hlatch hf
    obtain ⟨b, n⟩ := s
    simp only at hlatch
    subst hlatch
    rw [close_fresh]
    simp [hf]
  refine ⟨by rw [heq], ?_, ?_, ?_⟩
  · intro hok
    rw [heq]
    simp [hok]
  · intro e he
    rw [heq]
    simp [he]
  · intro hlatch hf
    rw [heq]
    simp [hfatal hlatch hf]

/-- Witness for C8: dropping an unlatched device whose native close fails
(return 3, errno 7) panics with OS error 7; a drop on an already latched
device returns normally. -/
theorem drop_fatal_witness :
    (Device.drop_device ⟨1⟩ ⟨3, 7⟩ ⟨false, 0⟩).1 = DropOutcome.panicked ⟨7⟩ ∧
    (Device.drop_device ⟨1⟩ ⟨3, 7⟩ ⟨true, 1⟩).1 = DropOutcome.returned :=
  ⟨(drop_closes_and_failure_is_fatal ⟨1⟩ ⟨3, 7⟩ ⟨false, 0⟩).2.2.2 rfl (by decide),
   (drop_closes_and_failure_is_fatal ⟨1⟩ ⟨3, 7⟩ ⟨true, 1⟩).2.1 rfl⟩

/-- C9: no operation other than close() (and drop, which calls close())
reads or writes the shared close latch.  Every configuration, streaming and
cancellation operation leaves the shared state untouched, behaves
identically under any latch value `s` versus `s'` — in particular after
close() has completed on any clone — and unconditionally issues its foreign
call on the same native pointer `d.device`, with no closed-state guard. -/
theorem ops_ignore_close_latch (σ : Type) (d : Device) (mode gain ppm g0 : Int)
    (freq rate bs ctx : Nat) (cb : σ → List Nat → σ) (st : σ)
    (session : List ((Nat → Nat) × Nat)) (f : ForeignRet) (s s' : DevState)
    (h : CtxHeap σ) :
    (Device.set_tuner_gain_mode d mode f s).2.1 = s ∧
    (Device.set_tuner_gain_mode d mode f s).1 =
      (Device.set_tuner_gain_mode d mode f s').1 ∧
    (Device.set_tuner_gain_mode d mode f s).2.2 =
      [ForeignCall.rtlsdr_set_tuner_gain_mode d.device mode] ∧
    (Device.get_tuner_gain d g0 s).2.1 = s ∧
    (Device.get_tuner_gain d g0 s).1 = (Device.get_tuner_gain d g0 s').1 ∧
    (Device.get_tuner_gain d g0 s).2.2 =
      [ForeignCall.rtlsdr_get_tuner_gain d.device] ∧
    (Device.set_tuner_gain d gain f s).2.1 = s ∧
    (Device.set_tuner_gain d gain f s).1 = (Device.set_tuner_gain d gain f s').1 ∧
    (Device.set_tuner_gain d gain f s).2.2 =
      [ForeignCall.rtlsdr_set_tuner_gain d.device gain] ∧
    (Device.set_freq_correction d ppm f s).2.1 = s ∧
    (Device.set_freq_correction d ppm f s).1 =
      (Device.set_freq_correction d ppm f s').1 ∧
    (Device.set_freq_correction d ppm f s).2.2 =
      [ForeignCall.rtlsdr_set_freq_correction d.device ppm] ∧
    (Device.set_center_freq d freq f s).2.1 = s ∧
    (Device.set_center_freq d freq f s).1 = (Device.set_center_freq d freq f s').1 ∧
    (Device.set_center_freq d freq f s).2.2 =
      [ForeignCall.rtlsdr_set_center_freq d.device freq] ∧
    (Device.set_sample_rate d rate f s).2.1 = s ∧
    (Device.set_sample_rate d rate f s).1 = (Device.set_sample_rate d rate f s').1 ∧
    (Device.set_sample_rate d rate f s).2.2 =
      [ForeignCall.rtlsdr_set_sample_rate d.device rate] ∧
    (Device.reset_buffer d f s).2.1 = s ∧
    (Device.reset_buffer d f s).1 = (Device.reset_buffer d f s').1 ∧
    (Device.reset_buffer d f s).2.2 = [ForeignCall.rtlsdr_reset_buffer d.device] ∧
    (Device.cancel_async d f s).2.1 = s ∧
    (Device.cancel_async d f s).1 = (Device.cancel_async d f s').1 ∧
    (Device.cancel_async d f s).2.2 =
      [ForeignCall.rtlsdr_cancel_async d.device] ∧
    (Device.read_async d bs cb st ctx session f s h).dstate = s ∧
    (Device.read_async d bs cb st ctx session f s h).result =
      (Device.read_async d bs cb st ctx session f s' h).result ∧
    (Device.read_async d bs cb st ctx session f s h).heap =
      (Device.read_async d bs cb st ctx session f s' h).heap ∧
    (Device.read_async d bs cb st ctx session f s h).trace =
      [ForeignCall.rtlsdr_read_async d.device ctx bs] := by
  exact ⟨rfl, rfl, rfl, rfl, rfl, rfl, rfl, rfl, rfl, rfl, rfl, rfl, rfl, rfl,
    rfl, rfl, rfl, rfl, rfl, rfl, rfl, rfl, rfl, rfl, rfl, rfl, rfl, rfl⟩

/-- Counterexample to C6 as stated: two different configuration operations,
with different nonzero foreign return codes (3 and 4) but the same errno 7,
produce the identical error value `Error::last_os_error()` — the error
carries neither the operation name nor the foreign return code, only the
OS errno, so no `ConfigurationError` with operation identity exists. -/
theorem config_error_lacks_op_and_foreign_code :
    (Device.set_tuner_gain_mode ⟨1⟩ 0 ⟨3, 7⟩ ⟨false, 0⟩).1 = Except.error ⟨7⟩ ∧
    (Device.set_center_freq ⟨1⟩ 100 ⟨4, 7⟩ ⟨false, 0⟩).1 = Except.error ⟨7⟩ ∧
    (Device.set_tuner_gain_mode ⟨1⟩ 0 ⟨3, 7⟩ ⟨false, 0⟩).1 =
      (Device.set_center_freq ⟨1⟩ 100 ⟨4, 7⟩ ⟨false, 0⟩).1 := by
  refine ⟨?_, ?_, ?_⟩ <;> rfl

/-- C6 as amended: open(index) and each configuration operation
(set_tuner_gain_mode, set_tuner_gain, set_freq_correction, set_center_freq,
set_sample_rate, reset_buffer) fails independently exactly when its foreign
return is nonzero, with the error produced by `Error::last_os_error()`
carrying the OS errno (not the operation name, not the foreign return
value), and returns success on zero foreign return. -/
theorem ops_fail_with_last_os_error (d : Device) (mode gain ppm : Int)
    (idx ptr freq rate : Nat) (f g : ForeignRet) (s : DevState)
    (hf : f.ret ≠ 0) (hg : g.ret = 0) :
    (Device.open_device idx ptr f).1 = Except.error ⟨f.errno⟩ ∧
    (Device.set_tuner_gain_mode d mode f s).1 = Except.error ⟨f.errno⟩ ∧
    (Device.set_tuner_gain d gain f s).1 = Except.error ⟨f.errno⟩ ∧
    (Device.set_freq_correction d ppm f s).1 = Except.error ⟨f.errno⟩ ∧
    (Device.set_center_freq d freq f s).1 = Except.error ⟨f.errno⟩ ∧
    (Device.set_sample_rate d rate f s).1 = Except.error ⟨f.errno⟩ ∧
    (Device.reset_buffer d f s).1 = Except.error ⟨f.errno⟩ ∧
    (Device.open_device idx ptr g).1 = Except.ok (⟨ptr⟩, ⟨false, 0⟩) ∧
    (Device.set_tuner_gain_mode d mode g s).1 = Except.ok () ∧
    (Device.set_tuner_gain d gain g s).1 = Except.ok () ∧
    (Device.set_freq_correction d ppm g s).1 = Except.ok () ∧
    (Device.set_center_freq d freq g s).1 = Except.ok () ∧
    (Device.set_sample_rate d rate g s).1 = Except.ok () ∧
    (Device.reset_buffer d g s).1 = Except.ok () := by
  simp [Device.open_device, Device.set_tuner_gain_mode, Device.set_tuner_gain,
    Device.set_freq_correction, Device.set_center_freq, Device.set_sample_rate,
    Device.reset_buffer, hf, hg]

/-- Witness for the amended C6 at concrete failing (return 3, errno 7) and
succeeding (return 0) foreign environments. -/
theorem ops_fail_with_last_os_error_witness :
    (Device.open_device 0 9 ⟨3, 7⟩).1 = Except.error ⟨7⟩ ∧
    (Device.set_center_freq ⟨9⟩ 100000000 ⟨3, 7⟩ ⟨false, 0⟩).1 =
      Except.error ⟨7⟩ ∧
    (Device.open_device 0 9 ⟨0, 0⟩).1 = Except.ok (⟨9⟩, ⟨false, 0⟩) ∧
    (Device.set_center_freq ⟨9⟩ 100000000 ⟨0, 0⟩ ⟨false, 0⟩).1 =
      Except.ok () :=
  ⟨(ops_fail_with_last_os_error ⟨9⟩ 0 0 0 0 9 100000000 2048000 ⟨3, 7⟩ ⟨0, 0⟩
      ⟨false, 0⟩ (by decide) (by decide)).1,
   (ops_fail_with_last_os_error ⟨9⟩ 0 0 0 0 9 100000000 2048000 ⟨3, 7⟩ ⟨0, 0⟩
      ⟨false, 0⟩ (by decide) (by decide)).2.2.2.2.1,
   (ops_fail_with_last_os_error ⟨9⟩ 0 0 0 0 9 100000000 2048000 ⟨3, 7⟩ ⟨0, 0⟩
      ⟨false, 0⟩ (by decide) (by decide)).2.2.2.2.2.2.2.1,
   (ops_fail_with_last_os_error ⟨9⟩ 0 0 0 0 9 100000000 2048000 ⟨3, 7⟩ ⟨0, 0⟩
      ⟨false, 0⟩ (by decide) (by decide)).2.2.2.2.2.2.2.2.2.2.2.1⟩

/-! Helper lemmas about the trampoline and the context heap. -/

/-- The trampoline touches no heap address other than the context address it
was handed. -/
theorem async_callback_other {σ : Type} (buf : Nat → Nat) (len ctx a : Nat)
    (h : CtxHeap σ) (ha : a ≠ ctx) :
    async_callback buf len ctx h a = h a := by
  unfold async_callback
  cases hc : h ctx with
  | none => rfl
  | some cr => simp [ha]

/-- The trampoline keeps the context at its address live. -/
theorem async_callback_keeps_live {σ : Type} (buf : Nat → Nat) (len ctx : Nat)
    (h : CtxHeap σ) (hs : (h ctx).isSome = true) :
    ((async_callback buf len ctx h) ctx).isSome = true := by
  unfold async_callback
  cases hc : h ctx with
  | none => rw [hc] at hs; simp at hs
  | some cr => simp

/-- A whole session of trampoline invocations touches no heap address other
than the context address, and keeps the context live. -/
theorem session_fold_frame {σ : Type} (ctx : Nat)
    (session : List ((Nat → Nat) × Nat)) (h : CtxHeap σ) :
    (∀ a, a ≠ ctx →
      session.foldl (fun hh p => async_callback p.1 p.2 ctx hh) h a = h a) ∧
    ((h ctx).isSome = true →
      ((session.foldl (fun hh p => async_callback p.1 p.2 ctx hh) h) ctx).isSome
        = true) := by
  induction session generalizing h with
  | nil => exact ⟨fun a _ => rfl, fun hs => hs⟩
  | cons p ps ih =>
    constructor
    · intro a ha
      rw [List.foldl_cons]
      rw [(ih (async_callback p.1 p.2 ctx h)).1 a ha]
      exact async_callback_other p.1 p.2 ctx a h ha
    · intro hs
      rw [List.foldl_cons]
      exact (ih (async_callback p.1 p.2 ctx h)).2
        (async_callback_keeps_live p.1 p.2 ctx h hs)

/-- C3: on every invocation on a live context, the trampoline reconstitutes
the CallbackContext stored at the opaque pointer `boxed_ctx`, forms the
read-only view of the delivered buffer of length exactly the
foreign-supplied count `len`, applies the user closure exactly once to that
view, and hands the context back at the very same address — neither dropped
(still live there) nor leaked (every other address unchanged), exactly as
the foreign library expects for the next invocation. -/
theorem async_callback_roundtrip (σ : Type) (buf : Nat → Nat)
    (len boxed_ctx : Nat) (h : CtxHeap σ) (cr : AsyncClosureReader σ)
    (hctx : h boxed_ctx = some cr) :
    ((List.range len).map buf).length = len ∧
    async_callback buf len boxed_ctx h = fun a =>
      if a = boxed_ctx then
        some ⟨cr.callback, cr.callback cr.state ((List.range len).map buf)⟩
      else h a := by
  constructor
  · simp
  · unfold async_callback
    rw [hctx]

/-- Witness for C3: a counting closure stored at address 5; invoking the
trampoline with a 3-byte buffer advances the closure state by exactly one
application while address 5 stays live and address 7 stays dead. -/
theorem async_callback_roundtrip_witness :
    ((fun a => if a = 5 then some (AsyncClosureReader.new
        (fun (n : Nat) (b : List Nat) => n + b.length) 0) else none) :
      CtxHeap Nat) 5 = some (AsyncClosureReader.new
        (fun (n : Nat) (b : List Nat) => n + b.length) 0) ∧
    async_callback (fun i => i) 3 5
      ((fun a => if a = 5 then some (AsyncClosureReader.new
          (fun (n : Nat) (b : List Nat) => n + b.length) 0) else none) :
        CtxHeap Nat) = fun a =>
      if a = 5 then
        some ⟨fun (n : Nat) (b : List Nat) => n + b.length,
          (fun (n : Nat) (b : List Nat) => n + b.length) 0
            ((List.range 3).map (fun i => i))⟩
      else ((fun a => if a = 5 then some (AsyncClosureReader.new
          (fun (n : Nat) (b : List Nat) => n + b.length) 0) else none) :
        CtxHeap Nat) a :=
  ⟨rfl,
   (async_callback_roundtrip Nat (fun i => i) 3 5
      (fun a => if a = 5 then some (AsyncClosureReader.new
          (fun (n : Nat) (b : List Nat) => n + b.length) 0) else none)
      (AsyncClosureReader.new (fun (n : Nat) (b : List Nat) => n + b.length) 0)
      rfl).2⟩

/-- Counterexample to C5 as stated: a complete `read_async` session (the
foreign blocking call has returned, successfully) leaves the
CallbackContext allocation at its address in the heap — the context is
never destroyed when the read terminates, so the allocation outlives its
streaming session. -/
theorem read_async_ctx_outlives_session :
    (Device.read_async ⟨1⟩ 512 (fun (n : Nat) (b : List Nat) => n + b.length)
        0 5 [] ⟨0, 0⟩ ⟨false, 0⟩ (fun _ => none)).result = Except.ok () ∧
    (Device.read_async ⟨1⟩ 512 (fun (n : Nat) (b : List Nat) => n + b.length)
        0 5 [] ⟨0, 0⟩ ⟨false, 0⟩ (fun _ => none)).heap 5 =
      some (AsyncClosureReader.new
        (fun (n : Nat) (b : List Nat) => n + b.length) 0) :=
  ⟨rfl, rfl⟩

/-- C5 as amended: read_async creates exactly one CallbackContext, at the
fresh address handed to the foreign library; every trampoline invocation of
the session operates on that one address and no other allocation is
touched; but the context is NOT destroyed when the read terminates — after
read_async returns (on cancellation or foreign error alike) the allocation
is still live, leaked for good. -/
theorem read_async_single_leaked_ctx (σ : Type) (d : Device) (bs : Nat)
    (cb : σ → List Nat → σ) (st : σ) (ctx_addr : Nat)
    (session : List ((Nat → Nat) × Nat)) (f : ForeignRet) (s : DevState)
    (h : CtxHeap σ) (hfresh : h ctx_addr = none) :
    ((Device.read_async d bs cb st ctx_addr session f s h).heap ctx_addr).isSome
      = true ∧
    (Device.read_async d bs cb st ctx_addr session f s h).heap ctx_addr ≠
      h ctx_addr ∧
    (∀ a, a ≠ ctx_addr →
      (Device.read_async d bs cb st ctx_addr session f s h).heap a = h a) ∧
    (Device.read_async d bs cb st ctx_addr session f s h).trace =
      [ForeignCall.rtlsdr_read_async d.device ctx_addr bs] := by
  have hlive :
      ((Device.read_async d bs cb st ctx_addr session f s h).heap ctx_addr).isSome
        = true :=
    (session_fold_frame ctx_addr session _).2 (by simp)
  refine ⟨hlive, ?_, ?_, rfl⟩
  · intro heq
    rw [heq, hfresh] at hlive
    simp at hlive
  · intro a ha
    have := (session_fold_frame (σ := σ) ctx_addr session
      (fun a => if a = ctx_addr then some (AsyncClosureReader.new cb st)
                else h a)).1 a ha
    unfold Device.read_async
    simp only at this ⊢
    rw [this]
    simp [ha]

/-- Witness for the amended C5: a fresh address 5 in an empty heap, a
one-buffer session; after read_async returns the context at 5 is still
live, address 7 is still dead, and the trace is the single foreign
streaming call. -/
theorem read_async_single_leaked_ctx_witness :
    (((fun _ => none) : CtxHeap Nat) 5 = none) ∧
    ((Device.read_async ⟨1⟩ 512 (fun (n : Nat) (b : List Nat) => n + b.length)
        0 5 [(fun i => i, 4)] ⟨0, 0⟩ ⟨false, 0⟩ (fun _ => none)).heap 5).isSome
      = true ∧
    (Device.read_async ⟨1⟩ 512 (fun (n : Nat) (b : List Nat) => n + b.length)
        0 5 [(fun i => i, 4)] ⟨0, 0⟩ ⟨false, 0⟩ (fun _ => none)).heap 7 =
      none ∧
    (Device.read_async ⟨1⟩ 512 (fun (n : Nat) (b : List Nat) => n + b.length)
        0 5 [(fun i => i, 4)] ⟨0, 0⟩ ⟨false, 0⟩ (fun _ => none)).trace =
      [ForeignCall.rtlsdr_read_async 1 5 512] :=
  ⟨rfl,
   (read_async_single_leaked_ctx Nat ⟨1⟩ 512
      (fun (n : Nat) (b : List Nat) => n + b.length) 0 5 [(fun i => i, 4)]
      ⟨0, 0⟩ ⟨false, 0⟩ (fun _ => none) rfl).1,
   (read_async_single_leaked_ctx Nat ⟨1⟩ 512
      (fun (n : Nat) (b : List Nat) => n + b.length) 0 5 [(fun i => i, 4)]
      ⟨0, 0⟩ ⟨false, 0⟩ (fun _ => none) rfl).2.2.1 7 (by decide),
   (read_async_single_leaked_ctx Nat ⟨1⟩ 512
      (fun (n : Nat) (b : List Nat) => n + b.length) 0 5 [(fun i => i, 4)]
      ⟨0, 0⟩ ⟨false, 0⟩ (fun _ => none) rfl).2.2.2⟩

/-! Helper lemma for the main closure on fully written buffers. -/

/-- One invocation of the main closure on a `k`-byte buffer that the file
write consumes completely: the total grows by `k`, there is no short-write
cancel, and the quota cancel fires exactly when the new total strictly
exceeds a positive `samples`. -/
theorem main_callback_full_write (samples k : Nat) (s : MainState) :
    main_callback samples List.length s (List.replicate k 0) =
      ⟨s.total_bytes_written + k,
       if 0 < samples ∧ samples < s.total_bytes_written + k
       then s.cancel_async_calls + 1 else s.cancel_async_calls⟩ := by
  simp [main_callback]

/-- Counterexample to C4 as stated: with the sample bound 1024 and fully
written 512-byte buffers (`write` = actual length), after the second buffer
— cumulative count exactly 1024 — the closure has requested NO
cancellation (the code's condition is the strict `total_bytes_written >
samples`), and the delivery loop delivers a third buffer. -/
theorem no_cancel_after_second_buffer :
    (runCallbacks 1024 List.length
        [List.replicate 512 0, List.replicate 512 0]
        ⟨0, 0⟩).total_bytes_written = 1024 ∧
    (runCallbacks 1024 List.length
        [List.replicate 512 0, List.replicate 512 0]
        ⟨0, 0⟩).cancel_async_calls = 0 ∧
    (deliverUntilCancel 1024 List.length
        [List.replicate 512 0, List.replicate 512 0, List.replicate 512 0]
        ⟨0, 0⟩).2 = 3 := by
  refine ⟨?_, ?_, ?_⟩ <;>
    (simp only [runCallbacks, deliverUntilCancel, List.foldl_cons,
        List.foldl_nil, main_callback_full_write]
     try decide)

/-- C4 as amended: with a configured sample bound of 1024 bytes and
successive fully-written 512-byte buffers, cancellation is requested during
the third callback — the code cancels only once the cumulative byte count
strictly exceeds the bound (1536 > 1024) — so a third buffer IS delivered
and the fourth is not. -/
theorem cancel_after_third_buffer :
    (runCallbacks 1024 List.length
        [List.replicate 512 0, List.replicate 512 0]
        ⟨0, 0⟩).cancel_async_calls = 0 ∧
    (runCallbacks 1024 List.length
        [List.replicate 512 0, List.replicate 512 0, List.replicate 512 0]
        ⟨0, 0⟩).cancel_async_calls = 1 ∧
    (deliverUntilCancel 1024 List.length
        [List.replicate 512 0, List.replicate 512 0, List.replicate 512 0,
         List.replicate 512 0] ⟨0, 0⟩).2 = 3 ∧
    (deliverUntilCancel 1024 List.length
        [List.replicate 512 0, List.replicate 512 0, List.replicate 512 0,
         List.replicate 512 0] ⟨0, 0⟩).1.total_bytes_written = 1536 := by
  refine ⟨?_, ?_, ?_, ?_⟩ <;>
    (simp only [runCallbacks, deliverUntilCancel, List.foldl_cons,
        List.foldl_nil, main_callback_full_write]
     try decide)

/-! Helper lemma for the enumeration. -/

/-- Folding the push-on-success loop body over a list of indices appends
exactly the successful queries, in index order. -/
theorem foldl_push_eq_filterMap (query : Nat → ForeignRet × DeviceInfo)
    (l : List Nat) (acc : List DeviceInfo) :
    l.foldl (push_device query) acc =
      acc ++ l.filterMap (fun j => (get_device j query).toOption) := by
  induction l generalizing acc with
  | nil => simp
  | cons x xs ih =>
    cases hq : get_device x query <;>
      simp [List.foldl_cons, push_device, hq, ih, Except.toOption,
        List.filterMap_cons]

/-- C7: get_devices() iterates indices 0..get_device_count(), queries the
USB strings of each, silently drops every failing index and returns the
successful DeviceInfo records in native enumeration order (the filterMap of
the query over the ascending index range); with zero devices it returns the
empty list; the higher-level no-devices condition is a dedicated error of
`main` raised exactly on an empty result — a per-device query failure
itself surfaces no error: whenever at least one index succeeds, the
no-devices check passes. -/
theorem get_devices_enumeration (count : Nat)
    (query : Nat → ForeignRet × DeviceInfo) :
    get_devices count query =
      (List.range count).filterMap (fun j => (get_device j query).toOption) ∧
    get_devices 0 query = [] ∧
    main_no_devices_check (get_devices 0 query) =
      Except.error ("No supported RTLSDR devices found.") ∧
    (get_devices count query ≠ [] →
      main_no_devices_check (get_devices count query) = Except.ok ()) := by
  have hmain : get_devices count query =
      (List.range count).filterMap (fun j => (get_device j query).toOption) := by
    unfold get_devices
    rw [foldl_push_eq_filterMap query (List.range (get_device_count count)) []]
    rfl
  refine ⟨hmain, rfl, rfl, ?_⟩
  intro hne
  unfold main_no_devices_check
  simp [hne]

/-- Witness for C7: two attached devices where the query for index 0 fails
(return 5, errno 9) and index 1 succeeds; the result holds exactly the
record of index 1, and the no-devices check passes despite the per-index
failure. -/
theorem get_devices_enumeration_witness :
    get_devices 2 (fun j =>
        if j = 0 then (⟨5, 9⟩, ⟨"v0", "p0", "s0"⟩) else (⟨0, 0⟩, ⟨"v1", "p1", "s1"⟩)) =
      [⟨"v1", "p1", "s1"⟩] ∧
    main_no_devices_check (get_devices 2 (fun j =>
        if j = 0 then (⟨5, 9⟩, ⟨"v0", "p0", "s0"⟩)
        else (⟨0, 0⟩, ⟨"v1", "p1", "s1"⟩))) = Except.ok () ∧
    get_devices 0 (fun j =>
        if j = 0 then (⟨5, 9⟩, ⟨"v0", "p0", "s0"⟩)
        else (⟨0, 0⟩, ⟨"v1", "p1", "s1"⟩)) = [] ∧
    main_no_devices_check (get_devices 0 (fun j =>
        if j = 0 then (⟨5, 9⟩, ⟨"v0", "p0", "s0"⟩)
        else (⟨0, 0⟩, ⟨"v1", "p1", "s1"⟩))) =
      Except.error ("No supported RTLSDR devices found.") :=
  ⟨rfl,
   (get_devices_enumeration 2 (fun j =>
      if j = 0 then (⟨5, 9⟩, ⟨"v0", "p0", "s0"⟩)
      else (⟨0, 0⟩, ⟨"v1", "p1", "s1"⟩))).2.2.2 (by decide),
   (get_devices_enumeration 0 (fun j =>
      if j = 0 then (⟨5, 9⟩, ⟨"v0", "p0", "s0"⟩)
      else (⟨0, 0⟩, ⟨"v1", "p1", "s1"⟩))).2.1,
   (get_devices_enumeration 0 (fun j =>
      if j = 0 then (⟨5, 9⟩, ⟨"v0", "p0", "s0"⟩)
      else (⟨0, 0⟩, ⟨"v1", "p1", "s1"⟩))).2.2.1⟩

end RtlSdr
